import Mathlib

/-!
A verification development for the `pdf_utils` module of DocuChat: a shallow
embedding of its functions (PDF validation, chunk-splitter configuration,
content fingerprinting, vector-index existence checking and ingestion, and the
RAG query pipeline), followed by theorems settling the specification's claims.

Text is embedded as `List Char` (Python `str`), raw file bytes as `List Nat`
(each entry a byte), and the external services (PDF text extraction, the
Pinecone index, the retriever and the chat model) as explicit parameters:
parse outcomes are `Except String (List (List Char))` (parse failure, or the
ordered per-page extracted text), and the index is a state carrying the
metadata of the stored vector records.
-/

/-! ## Python string primitives -/

/-- The ASCII whitespace characters recognised by Python `str.split()` and
`str.strip()` with no arguments. -/
def isPythonSpace (c : Char) : Bool :=
  c == ' ' || c == '\t' || c == '\n' || c == '\r' || c == '\x0b' || c == '\x0c'

/-- Worker for `pySplit`: walks the text accumulating the current token in
reverse; whitespace ends the token (if nonempty), and no empty tokens are
produced. -/
def pySplitAux : List Char → List Char → List (List Char)
  | [], acc => if acc.isEmpty then [] else [acc.reverse]
  | c :: cs, acc =>
    if isPythonSpace c then
      if acc.isEmpty then pySplitAux cs [] else acc.reverse :: pySplitAux cs []
    else
      pySplitAux cs (c :: acc)

/-- Python `str.split()` with no arguments: split on runs of whitespace,
dropping empty pieces. -/
def pySplit (s : List Char) : List (List Char) := pySplitAux s []

/-- `len(full_text.split())` as computed by `validate_pdf`. -/
def wordCount (s : List Char) : Nat := (pySplit s).length

/-- Python `str.strip()` with no arguments: remove leading and trailing
whitespace. -/
def pyStrip (s : List Char) : List Char :=
  ((s.dropWhile isPythonSpace).reverse.dropWhile isPythonSpace).reverse

/-! ## Document Validator: `validate_pdf` -/

/-- `validate_pdf(file_content)` from `pdf_utils.py`. The PyMuPDF parse and
per-page text extraction are external, so the input is its outcome: a parse
failure message, or the ordered list of per-page texts. The concatenation of
the pages in page order is the `full_text` the source accumulates. Returns
the `(ok, message, full_text)` triple of the source; every exception from the
parse/extract stage is caught and reported in the error triple. -/
def validate_pdf (parsed : Except String (List (List Char))) :
    Bool × String × List Char :=
  match parsed with
  | .error e => (false, ("Error reading PDF: ") ++ e, [])
  | .ok pages =>
    if pages.length > 5 then
      (false, ("PDF has ") ++ toString pages.length ++ (" pages. Maximum allowed is 5."), [])
    else if wordCount pages.flatten > 10000 then
      (false, ("PDF has ") ++ toString (wordCount pages.flatten) ++ (" words. Maximum allowed is 10,000."), [])
    else
      (true, ("PDF is valid."), pages.flatten)

/-! ## Chunker: `process_pdf_and_split` -/

/-- The configuration handed to LangChain's `RecursiveCharacterTextSplitter`. -/
structure SplitterConfig where
  chunk_size : Nat
  chunk_overlap : Nat
  separators : List (List Char)

/-- `process_pdf_and_split(file_content, chunk_size=1000, chunk_overlap=200)`
from `pdf_utils.py`. The splitter itself is LangChain's; what the source
controls is the configuration it builds and the text it hands over, so the
embedding returns that pair. Note the source constructs the splitter with the
literals `chunk_size=1000, chunk_overlap=200`, not with its own arguments. -/
def process_pdf_and_split (parsed : Except String (List (List Char)))
    (chunk_size : Nat) (chunk_overlap : Nat) :
    Except String (SplitterConfig × List Char) :=
  match parsed with
  | .error e => .error (("Error processing PDF: ") ++ e)
  | .ok pages =>
    .ok ({ chunk_size := 1000, chunk_overlap := 200,
           separators := [['\n', '\n'], ['\n'], ['.'], [' '], []] },
         pages.flatten)

/-! ## Vector Store Gateway -/

/-- The observable state of the external Pinecone index: the metadata
`(doc_hash, chunk_id)` of each stored vector record, in upsert order, plus a
flag saying whether queries against it currently raise. -/
structure IndexState where
  records : List (String × Nat)
  failing : Bool

/-- `index.query(vector=..., top_k=..., filter={doc_hash: {eq: h}})`: when the
service errors the call raises; otherwise it returns up to `top_k` records
whose `doc_hash` metadata equals the filtered value. The query vector only
positions the results and is irrelevant to whether a filter match exists. -/
def indexQuery (index : IndexState) (vector : List Int) (top_k : Nat)
    (doc_hash : String) : Except String (List (String × Nat)) :=
  if index.failing then .error ("query failed")
  else .ok ((index.records.filter (fun r => r.1 == doc_hash)).take top_k)

/-- `is_document_already_indexed(index, pdf_hash)` from `pdf_utils.py`: query
with the placeholder all-zero 1536-dimensional vector, `top_k=1` and the
metadata filter `doc_hash == pdf_hash`; report whether any match came back,
and on any query error return `False` (fail-open). -/
def is_document_already_indexed (index : IndexState) (pdf_hash : String) : Bool :=
  match indexQuery index (List.replicate 1536 0) 1 pdf_hash with
  | .ok results => results.length > 0
  | .error _ => false

/-- `store_chunks_in_pinecone(chunks, ..., pdf_hash)` from `pdf_utils.py`:
upsert one record per chunk with metadata
`{doc_hash: pdf_hash, chunk_id: i}` for `i in range(len(chunks))`. -/
def store_chunks_in_pinecone (index : IndexState) (chunks : List (List Char))
    (pdf_hash : String) : IndexState :=
  { index with
    records := index.records ++ (List.range chunks.length).map (fun i => (pdf_hash, i)) }

/-- Modelled from the spec: the caller-side ingestion path that sequences the
existence check before storing is app-level code not present under `src/`.
Per the spec, a fingerprint already present in the index is skipped and no
upsert occurs; otherwise the chunks are stored. The second component counts
the upsert calls performed. -/
def ingest_document (index : IndexState) (chunks : List (List Char))
    (pdf_hash : String) : IndexState × Nat :=
  if is_document_already_indexed index pdf_hash then (index, 0)
  else (store_chunks_in_pinecone index chunks pdf_hash, chunks.length)

/-! ## Answer Synthesizer: the RAG pipeline -/

/-- The prompt template string returned by `create_rag_prompt_template` in
`pdf_utils.py` (braces of the placeholders written as hex escapes, likewise
apostrophes and backticks). -/
def ragTemplate : String :=
  "\nYou are **DocuChat**, an AI assistant that answers questions about an uploaded PDF.\nFollow these rules strictly:\n\n1️⃣ *Grounding* – Base your answer primarily on the *Context* below.  \n2️⃣ *Enrichment* – You *may* add short, widely accepted background facts if they make the answer clearer.  \n   • Prefix each extra fact with *💡 Extra insight:* so the user knows it’s outside the document.  \n3️⃣ *Formatting* – Reply in *Markdown*:\n   • Use bullet points or numbered lists for multiple items\n   • Bold key terms or section names\n4️⃣ *Unknowns* – If the document doesn\x27t help answer the question, you may still use your general knowledge to provide a helpful answer.  \n   • Do **not** respond with: \x60\"The document doesn\x27t contain that information.\"\x60 unless instructed to.\n---\nContext:\n\x7bcontext\x7d\n\nQuestion:\n\x7bquery\x7d\n\nAnswer:\n"

/-- `chunkStarts pat s` is true when `pat` is an initial segment of `s`. -/
def chunkStarts : List Char → List Char → Bool
  | [], _ => true
  | _ :: _, [] => false
  | p :: ps, c :: cs => p == c && chunkStarts ps cs

/-- Formatting of the `ChatPromptTemplate`: scan the template once, left to
right, substituting `context` for the placeholder `\x7bcontext\x7d` and
`query` for `\x7bquery\x7d`; substituted text is not rescanned. -/
def formatPrompt : List Char → List Char → List Char → List Char
  | [], _, _ => []
  | c :: cs, ctx, q =>
    if chunkStarts (("\x7bcontext\x7d").data) (c :: cs) then
      ctx ++ formatPrompt ((c :: cs).drop 9) ctx q
    else if chunkStarts (("\x7bquery\x7d").data) (c :: cs) then
      q ++ formatPrompt ((c :: cs).drop 7) ctx q
    else
      c :: formatPrompt cs ctx q
termination_by s _ _ => s.length
decreasing_by
  · simp [List.length_drop]; omega
  · simp [List.length_drop]; omega
  · simp

/-- `query_llm_with_rag(query, vector_store, llm, top_k=5)` from
`pdf_utils.py`. The retriever and the chat model are external fallible
services, passed as functions returning `Except`; the single `try` of the
source catches an exception raised by either and returns
`"Error querying LLM: " + str(e)` instead. On success the retrieved page
contents are joined with blank lines (or replaced by the placeholder when no
document was retrieved), substituted into the prompt template together with
the query, and the model's response is returned stripped. -/
def query_llm_with_rag (query : List Char)
    (retrieve : List Char → Nat → Except (List Char) (List (List Char)))
    (llm : List Char → Except (List Char) (List Char))
    (top_k : Nat) : List Char :=
  match retrieve query top_k with
  | .error e => ("Error querying LLM: ").data ++ e
  | .ok retrieved_docs =>
    match llm (formatPrompt ragTemplate.data
        (if retrieved_docs.isEmpty then ("No relevant context found.").data
         else List.intercalate (("\n\n").data) retrieved_docs) query) with
    | .error e => ("Error querying LLM: ").data ++ e
    | .ok response => pyStrip response

/-! ## Content Fingerprinter: `get_pdf_hash`

`hashlib.sha256(file_bytes).hexdigest()` embedded as SHA-256 over byte lists
(FIPS 180-4), with 32-bit words carried as `Nat` reduced modulo `2 ^ 32`. -/

/-- Reduce to a 32-bit word. -/
def w32 (n : Nat) : Nat := n % 4294967296

/-- Right rotation of a 32-bit word. -/
def rotr32 (x n : Nat) : Nat := w32 ((x >>> n) ||| (x <<< (32 - n)))

/-- The SHA-256 choice function. -/
def shaCh (e f g : Nat) : Nat := (e &&& f) ^^^ ((e ^^^ 4294967295) &&& g)

/-- The SHA-256 majority function. -/
def shaMaj (a b c : Nat) : Nat := (a &&& b) ^^^ (a &&& c) ^^^ (b &&& c)

/-- The SHA-256 compression sigma functions. -/
def bigSigma0 (x : Nat) : Nat := rotr32 x 2 ^^^ rotr32 x 13 ^^^ rotr32 x 22

/-- See `bigSigma0`. -/
def bigSigma1 (x : Nat) : Nat := rotr32 x 6 ^^^ rotr32 x 11 ^^^ rotr32 x 25

/-- The SHA-256 message-schedule sigma functions. -/
def smallSigma0 (x : Nat) : Nat := rotr32 x 7 ^^^ rotr32 x 18 ^^^ (x >>> 3)

/-- See `smallSigma0`. -/
def smallSigma1 (x : Nat) : Nat := rotr32 x 17 ^^^ rotr32 x 19 ^^^ (x >>> 10)

/-- The 64 SHA-256 round constants (decimal). -/
def shaK : List Nat :=
  [1116352408, 1899447441, 3049323471, 3921009573, 961987163, 1508970993,
   2453635748, 2870763221, 3624381080, 310598401, 607225278, 1426881987,
   1925078388, 2162078206, 2614888103, 3248222580, 3835390401, 4022224774,
   264347078, 604807628, 770255983, 1249150122, 1555081692, 1996064986,
   2554220882, 2821834349, 2952996808, 3210313671, 3336571891, 3584528711,
   113926993, 338241895, 666307205, 773529912, 1294757372, 1396182291,
   1695183700, 1986661051, 2177026350, 2456956037, 2730485921, 2820302411,
   3259730800, 3345764771, 3516065817, 3600352804, 4094571909, 275423344,
   430227734, 506948616, 659060556, 883997877, 958139571, 1322822218,
   1537002063, 1747873779, 1955562222, 2024104815, 2227730452, 2361852424,
   2428436474, 2756734187, 3204031479, 3329325298]

/-- SHA-256 padding: append the `0x80` byte, then zero bytes up to 56 mod 64,
then the bit length as 8 big-endian bytes. -/
def sha256pad (msg : List Nat) : List Nat :=
  msg ++ [128] ++ List.replicate ((120 - ((msg.length + 1) % 64)) % 64) 0 ++
    (List.range 8).map (fun i => ((8 * msg.length) >>> ((7 - i) * 8)) % 256)

/-- Cut a byte list into 64-byte blocks; the fuel (any bound on the length)
keeps the recursion structural so that it evaluates in the kernel. -/
def toBlocks : Nat → List Nat → List (List Nat)
  | 0, _ => []
  | _ + 1, [] => []
  | fuel + 1, c :: cs => (c :: cs).take 64 :: toBlocks fuel ((c :: cs).drop 64)

/-- The first 16 schedule words of a 64-byte block, big-endian. -/
def blockWords (block : List Nat) : List Nat :=
  (List.range 16).map (fun i =>
    block.getD (4 * i) 0 * 16777216 + block.getD (4 * i + 1) 0 * 65536 +
    block.getD (4 * i + 2) 0 * 256 + block.getD (4 * i + 3) 0)

/-- Extend the message schedule by `n` further words. -/
def extendWords (ws : List Nat) : Nat → List Nat
  | 0 => ws
  | n + 1 =>
    let prev := extendWords ws n
    let t := prev.length
    prev ++ [w32 (smallSigma1 (prev.getD (t - 2) 0) + prev.getD (t - 7) 0 +
                  smallSigma0 (prev.getD (t - 15) 0) + prev.getD (t - 16) 0)]

/-- The full 64-word message schedule of a block. -/
def scheduleOf (block : List Nat) : List Nat := extendWords (blockWords block) 48

/-- The eight 32-bit working variables of SHA-256. -/
structure SHAState where
  a : Nat
  b : Nat
  c : Nat
  d : Nat
  e : Nat
  f : Nat
  g : Nat
  h : Nat

/-- One SHA-256 round, taking the pair of round constant and schedule word. -/
def shaRound (st : SHAState) (kw : Nat × Nat) : SHAState :=
  let t1 := w32 (st.h + bigSigma1 st.e + shaCh st.e st.f st.g + kw.1 + kw.2)
  let t2 := w32 (bigSigma0 st.a + shaMaj st.a st.b st.c)
  { a := w32 (t1 + t2), b := st.a, c := st.b, d := st.c,
    e := w32 (st.d + t1), f := st.e, g := st.f, h := st.g }

/-- Compress one 64-byte block into the running hash state. -/
def shaCompressBlock (st : SHAState) (block : List Nat) : SHAState :=
  let fin := (shaK.zip (scheduleOf block)).foldl shaRound st
  { a := w32 (st.a + fin.a), b := w32 (st.b + fin.b), c := w32 (st.c + fin.c),
    d := w32 (st.d + fin.d), e := w32 (st.e + fin.e), f := w32 (st.f + fin.f),
    g := w32 (st.g + fin.g), h := w32 (st.h + fin.h) }

/-- The SHA-256 initial hash value (decimal). -/
def shaInit : SHAState :=
  { a := 1779033703, b := 3144134277, c := 1013904242, d := 2773480762,
    e := 1359893119, f := 2600822924, g := 528734635, h := 1541459225 }

/-- SHA-256 of a byte list. -/
def sha256 (msg : List Nat) : SHAState :=
  (toBlocks (sha256pad msg).length (sha256pad msg)).foldl shaCompressBlock shaInit

/-- The sixteen lowercase hexadecimal digit characters. -/
def hexDigits : List Char :=
  ['0', '1', '2', '3', '4', '5', '6', '7'] ++ ['8', '9', 'a', 'b', 'c', 'd', 'e', 'f']

/-- The lowercase hexadecimal digit of a nibble. -/
def hexDigit (n : Nat) : Char := hexDigits.getD n '0'

/-- A 32-bit word as 8 lowercase hexadecimal characters, most significant
nibble first. -/
def wordToHex (w : Nat) : List Char :=
  (List.range 8).map (fun i => hexDigit ((w >>> ((7 - i) * 4)) % 16))

/-- The eight hash words of a state, in output order. -/
def stateWords (st : SHAState) : List Nat :=
  [st.a, st.b, st.c, st.d, st.e, st.f, st.g, st.h]

/-- `hashlib.sha256(msg).hexdigest()`: the digest as a 64-character lowercase
hexadecimal string. -/
def sha256hex (msg : List Nat) : String :=
  String.mk (((stateWords (sha256 msg)).map wordToHex).flatten)

/-- `get_pdf_hash(file_bytes)` from `pdf_utils.py`. -/
def get_pdf_hash (file_bytes : List Nat) : String := sha256hex file_bytes

/-! ## Concrete documents used in the theorems below -/

/-- A page holding exactly 10000 whitespace-delimited words. -/
def tenKPage : List Char := (List.replicate 10000 ['a', ' ']).flatten

/-- A six-page document whose text holds 10001 words: five blank pages after
a page of 10001 words. -/
def sixPageDoc : List (List Char) :=
  [(List.replicate 10001 ['a', ' ']).flatten, [], [], [], [], []]

/-! ## Helper lemmas -/

/-- One `"a "` atom at the head of the text contributes exactly the token
`"a"`. -/
theorem pySplit_cons_atom (t : List Char) :
    pySplit ('a' :: ' ' :: t) = ['a'] :: pySplit t := rfl

/-- The text `"a a ... a "` of `n` atoms splits into `n` tokens. -/
theorem pySplit_flatten_replicate (n : Nat) :
    pySplit (List.replicate n ['a', ' ']).flatten = List.replicate n ['a'] := by
  induction n with
  | zero => rfl
  | succ k ih =>
    rw [List.replicate_succ, List.flatten_cons]
    show pySplit ('a' :: ' ' :: (List.replicate k ['a', ' ']).flatten) = _
    rw [pySplit_cons_atom, ih, List.replicate_succ]

/-- The word count of the text of `n` `"a "` atoms is `n`. -/
theorem wordCount_flatten_replicate (n : Nat) :
    wordCount (List.replicate n ['a', ' ']).flatten = n := by
  simp [wordCount, pySplit_flatten_replicate]

/-- Over the page limit, `validate_pdf` rejects citing the page count. -/
theorem validate_pdf_pages_over_limit (pages : List (List Char))
    (h : pages.length > 5) :
    validate_pdf (.ok pages) =
      (false, ("PDF has ") ++ toString pages.length ++ (" pages. Maximum allowed is 5."), []) := by
  simp [validate_pdf, h]

/-- Within the page limit, `validate_pdf` is decided by the word count
alone. -/
theorem validate_pdf_pages_within_limit (pages : List (List Char))
    (h : pages.length ≤ 5) :
    validate_pdf (.ok pages) =
      if wordCount pages.flatten > 10000 then
        (false, ("PDF has ") ++ toString (wordCount pages.flatten) ++ (" words. Maximum allowed is 10,000."), [])
      else
        (true, ("PDF is valid."), pages.flatten) := by
  have h5 : ¬ pages.length > 5 := by omega
  simp [validate_pdf, h5]

/-! ## Claims -/

/-- Claim C1: the chunker builds its splitter from literals, not from the
caller-supplied arguments. For every value of `chunk_size` and
`chunk_overlap`, `process_pdf_and_split` configures the splitter with
`chunk_size = 1000`, `chunk_overlap = 200` and the separator priority order
paragraph, line, sentence, space, arbitrary character; in particular the call
with `chunk_size = 500, chunk_overlap = 50` still produces the 1000/200
configuration, contradicting the claim that changing the arguments changes
the splitter configuration. -/
theorem process_pdf_and_split_hardcodes_splitter_config :
    (∀ (chunk_size chunk_overlap : Nat) (pages : List (List Char)),
      process_pdf_and_split (.ok pages) chunk_size chunk_overlap =
        .ok ({ chunk_size := 1000, chunk_overlap := 200,
               separators := [['\n', '\n'], ['\n'], ['.'], [' '], []] },
             pages.flatten))
    ∧ process_pdf_and_split (.ok [['h', 'i']]) 500 50 =
        .ok ({ chunk_size := 1000, chunk_overlap := 200,
               separators := [['\n', '\n'], ['\n'], ['.'], [' '], []] },
             ['h', 'i'])
    ∧ (1000 ≠ 500 ∧ 200 ≠ 50) :=
  ⟨fun _ _ _ => rfl, rfl, by decide⟩

/-- Claim C2 counterexample: the claim quantifies over every parseable PDF,
but on a six-page document holding 10001 words `validate_pdf` returns the
page-count failure, not a failure citing the word count, so "fails citing the
word count exactly when the count exceeds 10,000" is false as stated. -/
theorem validate_pdf_word_claim_counterexample :
    wordCount sixPageDoc.flatten > 10000 ∧
    validate_pdf (.ok sixPageDoc) =
      (false, ("PDF has 6 pages. Maximum allowed is 5."), []) ∧
    validate_pdf (.ok sixPageDoc) ≠
      (false, ("PDF has ") ++ toString (wordCount sixPageDoc.flatten) ++ (" words. Maximum allowed is 10,000."), []) := by
  have hflat : sixPageDoc.flatten = (List.replicate 10001 ['a', ' ']).flatten := by
    simp only [sixPageDoc, List.flatten_cons, List.flatten_nil, List.append_nil,
      List.nil_append]
  have hw : wordCount sixPageDoc.flatten = 10001 := by
    rw [hflat, wordCount_flatten_replicate]
  have hpage : validate_pdf (.ok sixPageDoc) =
      (false, ("PDF has ") ++ toString sixPageDoc.length ++ (" pages. Maximum allowed is 5."), []) :=
    validate_pdf_pages_over_limit sixPageDoc (by norm_num [sixPageDoc])
  refine ⟨by rw [hw]; norm_num, by rw [hpage]; rfl, ?_⟩
  rw [hpage, hw]
  decide

/-- Claim C2 (amended): for every parseable PDF with at most 5 pages,
`validate_pdf` counts the whitespace-delimited tokens of the concatenation of
the pages' text in page order, fails citing that count and the 10,000 limit
exactly when the count exceeds 10,000, and accepts a document of exactly
10,000 words. -/
theorem validate_pdf_word_limit_within_pages (pages : List (List Char))
    (hp : pages.length ≤ 5) :
    (wordCount pages.flatten > 10000 →
      validate_pdf (.ok pages) =
        (false, ("PDF has ") ++ toString (wordCount pages.flatten) ++ (" words. Maximum allowed is 10,000."), []))
    ∧ (wordCount pages.flatten ≤ 10000 →
      validate_pdf (.ok pages) = (true, ("PDF is valid."), pages.flatten)) := by
  constructor
  · intro hw
    rw [validate_pdf_pages_within_limit pages hp, if_pos hw]
  · intro hw
    rw [validate_pdf_pages_within_limit pages hp, if_neg (by omega)]

/-- Claim C2 witness: the single-page document of exactly 10000 words is
accepted. -/
theorem validate_pdf_word_limit_within_pages_witness :
    wordCount ([tenKPage] : List (List Char)).flatten = 10000 ∧
    validate_pdf (.ok [tenKPage]) =
      (true, ("PDF is valid."), ([tenKPage] : List (List Char)).flatten) := by
  have hflat : ([tenKPage] : List (List Char)).flatten = tenKPage := by simp
  have hw : wordCount ([tenKPage] : List (List Char)).flatten = 10000 := by
    rw [hflat]; exact wordCount_flatten_replicate 10000
  exact ⟨hw, (validate_pdf_word_limit_within_pages [tenKPage] (by simp)).2
    (by rw [hflat]; exact Nat.le_of_eq (wordCount_flatten_replicate 10000))⟩

/-- Claim C3: for every parseable PDF, `validate_pdf` rejects citing the
actual page count and the limit 5 whenever the page count exceeds 5, and for
at most 5 pages the outcome is decided by the word count alone (success, or a
failure citing the word count), never a page-count rejection. -/
theorem validate_pdf_page_limit (pages : List (List Char)) :
    (pages.length > 5 →
      validate_pdf (.ok pages) =
        (false, ("PDF has ") ++ toString pages.length ++ (" pages. Maximum allowed is 5."), []))
    ∧ (pages.length ≤ 5 →
      validate_pdf (.ok pages) =
        if wordCount pages.flatten > 10000 then
          (false, ("PDF has ") ++ toString (wordCount pages.flatten) ++ (" words. Maximum allowed is 10,000."), [])
        else
          (true, ("PDF is valid."), pages.flatten)) :=
  ⟨validate_pdf_pages_over_limit pages, validate_pdf_pages_within_limit pages⟩

/-- Claim C3 witness: a six-page PDF is rejected with the message citing page
count 6, and a five-page PDF passes. -/
theorem validate_pdf_page_limit_witness :
    validate_pdf (.ok (List.replicate 6 ['a'])) =
      (false, ("PDF has 6 pages. Maximum allowed is 5."), []) ∧
    validate_pdf (.ok (List.replicate 5 ['a'])) =
      (true, ("PDF is valid."), (List.replicate 5 ['a'] : List (List Char)).flatten) := by
  constructor
  · have h := (validate_pdf_page_limit (List.replicate 6 ['a'])).1 (by decide)
    rw [h]; rfl
  · have h := (validate_pdf_page_limit (List.replicate 5 ['a'])).2 (by decide)
    rw [h]; rfl

/-- Claim C4: when the fingerprint is already present in the index (the
metadata-filtered existence query finds a record), ingestion is skipped: the
index is unchanged and zero upsert calls are made. -/
theorem ingest_document_skips_indexed_fingerprint (index : IndexState)
    (chunks : List (List Char)) (pdf_hash : String)
    (hup : index.failing = false)
    (hmem : ∃ r ∈ index.records, r.1 = pdf_hash) :
    ingest_document index chunks pdf_hash = (index, 0) := by
  have hq : is_document_already_indexed index pdf_hash = true := by
    obtain ⟨r, hr, hr1⟩ := hmem
    have hfil : r ∈ index.records.filter (fun r => r.1 == pdf_hash) :=
      List.mem_filter.mpr ⟨hr, by simp [hr1]⟩
    have hlen : 0 < (index.records.filter (fun r => r.1 == pdf_hash)).length :=
      List.length_pos.mpr (List.ne_nil_of_mem hfil)
    simp [is_document_already_indexed, indexQuery, hup, List.length_take]
    omega
  simp [ingest_document, hq]

/-- Claim C4 witness: an index already holding the fingerprint is returned
unchanged with zero upserts. -/
theorem ingest_document_skips_indexed_fingerprint_witness :
    ingest_document { records := [(("abc"), 0)], failing := false } [['x']] ("abc") =
      ({ records := [(("abc"), 0)], failing := false }, 0) :=
  ingest_document_skips_indexed_fingerprint _ _ _ rfl ⟨(("abc"), 0), by simp, rfl⟩

/-- Claim C5: `is_document_already_indexed` returns true exactly when the
metadata-filtered query with the all-zero 1536-dimensional placeholder vector
returns at least one match, and whenever that query errors it returns false
(fail-open) instead of propagating. -/
theorem is_document_already_indexed_query_spec (index : IndexState) (pdf_hash : String) :
    (is_document_already_indexed index pdf_hash = true ↔
      ∃ results, indexQuery index (List.replicate 1536 0) 1 pdf_hash = .ok results ∧
        0 < results.length)
    ∧ (∀ e, indexQuery index (List.replicate 1536 0) 1 pdf_hash = .error e →
        is_document_already_indexed index pdf_hash = false) := by
  cases hf : index.failing
  · constructor
    · simp [is_document_already_indexed, indexQuery, hf]
    · intro e he
      simp [indexQuery, hf] at he
  · constructor
    · simp [is_document_already_indexed, indexQuery, hf]
    · intro e he
      simp [is_document_already_indexed, indexQuery, hf]

/-- Claim C5 witness: on a failing index the check reports "not yet
indexed". -/
theorem is_document_already_indexed_query_spec_witness :
    is_document_already_indexed { records := [(("d"), 0)], failing := true } ("d") = false :=
  (is_document_already_indexed_query_spec _ _).2 ("query failed") rfl

/-- Claim C6: a parse or extraction failure is returned as the validation
triple `(false, reason, "")`, never thrown: `validate_pdf` is a total
function of the parse outcome, and on every failure it produces the failure
triple carrying the reason. -/
theorem validate_pdf_parse_failure_no_throw (e : String) :
    validate_pdf (.error e) = (false, ("Error reading PDF: ") ++ e, []) := rfl

/-- Each 32-bit word renders as exactly 8 characters. -/
theorem wordToHex_length (w : Nat) : (wordToHex w).length = 8 := by
  simp [wordToHex]

/-- The digest string has exactly 64 characters. -/
theorem sha256hex_length (msg : List Nat) : (sha256hex msg).length = 64 := by
  show (((stateWords (sha256 msg)).map wordToHex).flatten).length = 64
  rw [List.length_flatten]
  simp [stateWords, wordToHex_length]

/-- Every nibble renders as one of the sixteen lowercase hex characters. -/
theorem hexDigit_mem_of_lt : ∀ m, m < 16 → hexDigit m ∈ hexDigits := by decide

/-- Every character of the digest string is a lowercase hex character. -/
theorem sha256hex_mem_hexDigits (msg : List Nat) :
    ∀ c ∈ (sha256hex msg).data, c ∈ hexDigits := by
  intro c hc
  have hc' : c ∈ ((stateWords (sha256 msg)).map wordToHex).flatten := hc
  obtain ⟨l, hl, hcl⟩ := List.mem_flatten.mp hc'
  obtain ⟨w, -, rfl⟩ := List.mem_map.mp hl
  simp only [wordToHex, List.mem_map] at hcl
  obtain ⟨i, -, rfl⟩ := hcl
  exact hexDigit_mem_of_lt _ (Nat.mod_lt _ (by norm_num))

set_option maxRecDepth 100000 in
/-- Claim C7: `get_pdf_hash` is a pure deterministic function, its output is
a 64-character string of lowercase hexadecimal digits, and it is the SHA-256
hex digest (its value on the empty byte string is the standard SHA-256 test
vector). -/
theorem get_pdf_hash_sha256_hex_spec (b b' : List Nat) (hb : b = b') :
    get_pdf_hash b = get_pdf_hash b'
    ∧ (get_pdf_hash b).length = 64
    ∧ (∀ c ∈ (get_pdf_hash b).data, c ∈ hexDigits)
    ∧ get_pdf_hash [] =
        ("e3b0c44298fc1c149afbf4c8996fb92427ae41e4649b934ca495991b7852b855") := by
  refine ⟨by rw [hb], sha256hex_length b, sha256hex_mem_hexDigits b, ?_⟩
  decide

/-- Claim C7 witness: determinism and the digest shape at a concrete byte
string. -/
theorem get_pdf_hash_sha256_hex_spec_witness :
    get_pdf_hash [1, 2, 3] = get_pdf_hash [1, 2, 3] ∧
    (get_pdf_hash [1, 2, 3]).length = 64 ∧
    (∀ c ∈ (get_pdf_hash [1, 2, 3]).data, c ∈ hexDigits) ∧
    get_pdf_hash [] =
      ("e3b0c44298fc1c149afbf4c8996fb92427ae41e4649b934ca495991b7852b855") :=
  get_pdf_hash_sha256_hex_spec [1, 2, 3] [1, 2, 3] rfl

/-- Claim C8: whenever the retriever or the language-model call inside
`query_llm_with_rag` raises, the function returns the textual error message
as the answer instead of propagating the exception. -/
theorem query_llm_with_rag_returns_error_string (query : List Char) (top_k : Nat)
    (retrieve : List Char → Nat → Except (List Char) (List (List Char)))
    (llm : List Char → Except (List Char) (List Char)) :
    (∀ e, retrieve query top_k = .error e →
      query_llm_with_rag query retrieve llm top_k = ("Error querying LLM: ").data ++ e)
    ∧ (∀ docs e, retrieve query top_k = .ok docs →
      llm (formatPrompt ragTemplate.data
        (if docs.isEmpty then ("No relevant context found.").data
         else List.intercalate (("\n\n").data) docs) query) = .error e →
      query_llm_with_rag query retrieve llm top_k = ("Error querying LLM: ").data ++ e) := by
  constructor
  · intro e he
    simp only [query_llm_with_rag, he]
  · intro docs e h1 h2
    simp only [query_llm_with_rag, h1, h2]

/-- Claim C8 witness: a failing retriever yields the displayable error
string. -/
theorem query_llm_with_rag_returns_error_string_witness :
    query_llm_with_rag (("q").data)
        (fun _ _ => .error (("boom").data)) (fun _ => .ok (("ok").data)) 5 =
      ("Error querying LLM: boom").data := by
  have h := (query_llm_with_rag_returns_error_string (("q").data) 5
      (fun _ _ => .error (("boom").data)) (fun _ => .ok (("ok").data))).1 (("boom").data) rfl
  rw [h]
  decide

/-- Claim C9: on an empty retrieval result set the model is still invoked,
with the placeholder context "No relevant context found." substituted into
the prompt, and every successful invocation returns the model's response with
surrounding whitespace trimmed. -/
theorem query_llm_with_rag_empty_retrieval_placeholder (query resp : List Char)
    (top_k : Nat)
    (retrieve : List Char → Nat → Except (List Char) (List (List Char)))
    (llm : List Char → Except (List Char) (List Char)) :
    (retrieve query top_k = .ok [] →
      llm (formatPrompt ragTemplate.data (("No relevant context found.").data) query) =
          .ok resp →
      query_llm_with_rag query retrieve llm top_k = pyStrip resp)
    ∧ (∀ docs, retrieve query top_k = .ok docs →
      llm (formatPrompt ragTemplate.data
        (if docs.isEmpty then ("No relevant context found.").data
         else List.intercalate (("\n\n").data) docs) query) = .ok resp →
      query_llm_with_rag query retrieve llm top_k = pyStrip resp) := by
  have general : ∀ docs, retrieve query top_k = .ok docs →
      llm (formatPrompt ragTemplate.data
        (if docs.isEmpty then ("No relevant context found.").data
         else List.intercalate (("\n\n").data) docs) query) = .ok resp →
      query_llm_with_rag query retrieve llm top_k = pyStrip resp := by
    intro docs h1 h2
    simp only [query_llm_with_rag, h1, h2]
  exact ⟨fun h1 h2 => general [] h1 h2, general⟩

/-- Claim C9 witness: an empty retrieval still produces the model's (trimmed)
answer. -/
theorem query_llm_with_rag_empty_retrieval_placeholder_witness :
    query_llm_with_rag (("q").data) (fun _ _ => .ok []) (fun _ => .ok ((" hi ").data)) 5 =
      ("hi").data := by
  have h := (query_llm_with_rag_empty_retrieval_placeholder (("q").data) ((" hi ").data) 5
      (fun _ _ => .ok []) (fun _ => .ok ((" hi ").data))).1 rfl rfl
  rw [h]
  decide

/-- Claim C10: for every parseable PDF with more than 5 pages the result is
the page-count rejection and is independent of the pages' content (so the
word count is never consulted); in particular a document over both limits is
rejected citing pages, and a word-count rejection can only arise for at most
5 pages. -/
theorem validate_pdf_page_check_before_word_count (pages pages' : List (List Char))
    (h : pages.length > 5) (hlen : pages.length = pages'.length) :
    validate_pdf (.ok pages) =
      (false, ("PDF has ") ++ toString pages.length ++ (" pages. Maximum allowed is 5."), [])
    ∧ validate_pdf (.ok pages) = validate_pdf (.ok pages') := by
  have h' : pages'.length > 5 := hlen ▸ h
  refine ⟨validate_pdf_pages_over_limit pages h, ?_⟩
  rw [validate_pdf_pages_over_limit pages h, validate_pdf_pages_over_limit pages' h', hlen]

/-- Claim C10 witness: two six-page documents with different text validate
identically. -/
theorem validate_pdf_page_check_before_word_count_witness :
    validate_pdf (.ok (List.replicate 6 ['b'])) =
      validate_pdf (.ok (List.replicate 6 ['c', 'd'])) :=
  (validate_pdf_page_check_before_word_count _ _ (by decide) (by decide)).2
